import Mathlib

/-!
Shallow embedding of the `BrowserManager` class of agent-browser: the
Playwright session & resource lifecycle manager (tab/context registry,
CDP session, screencast, scoped header routes, video recording, launch
validation and teardown).

Pages, contexts, CDP sessions and route handlers are represented by numeric
handles.  External effects (filesystem paths, engine calls, CDP commands)
are threaded through an explicit `World`; outcomes of external calls that
can fail are supplied as oracle records.  Fallible methods return
`Except String` mirroring thrown `Error(msg)` values; a method that throws
before mutating `this` returns the input state unchanged.
-/

namespace AgentBrowser

/-- A Playwright `Page` handle: engine identity plus the owning context id. -/
structure PageH where
  id : Nat
  ctx : Nat
  deriving DecidableEq, Repr, Inhabited

/-- A JS header object: header name / value pairs. -/
abbrev HeaderMap := List (String × String)

/-- One registration made via `page.route(urlPat, handler)`: the page it was
registered on, the URL pattern, and the handler closure (identity plus the
captured `headers` object). -/
structure RouteEntry where
  pageId : Nat
  urlPat : String
  handlerId : Nat
  headers : HeaderMap
  deriving DecidableEq, Repr, Inhabited

/-- The mutable fields of `BrowserManager` that the verified claims touch,
mirroring the class field declarations. `nextId` models the engine's supply
of fresh handles for created contexts/pages/route handlers. -/
structure ManagerState where
  browser : Option Nat := none
  cdpEndpoint : Option String := none
  isPersistentContext : Bool := false
  browserbaseSessionId : Option String := none
  browserbaseApiKey : Option String := none
  browserUseSessionId : Option String := none
  browserUseApiKey : Option String := none
  kernelSessionId : Option String := none
  kernelApiKey : Option String := none
  contexts : List Nat := []
  pages : List PageH := []
  activePageIndex : Nat := 0
  refMap : List (String × String) := []
  lastSnapshot : String := ""
  scopedHeaderRoutes : List (String × Nat × HeaderMap) := []
  pageRoutes : List RouteEntry := []
  cdpSession : Option Nat := none
  screencastActive : Bool := false
  frameCallback : Bool := false
  screencastFrameHandler : Bool := false
  recordingContext : Option Nat := none
  recordingPage : Option PageH := none
  recordingOutputPath : String := ""
  recordingTempDir : String := ""
  nextId : Nat := 0
  deriving DecidableEq, Repr, Inhabited

/-- External world state: existing filesystem paths and logs of the engine /
CDP calls the manager has issued. -/
structure World where
  fs : List String := []
  pageCloseCalls : List Nat := []
  contextCloseCalls : List Nat := []
  browserCloseCalls : List Nat := []
  cdpCommands : List String := []
  deriving DecidableEq, Repr, Inhabited

/-- Manager state together with the external world. -/
abbrev MW := ManagerState × World

/-- `isLaunched()`: browser handle present or persistent context. -/
def isLaunched (s : ManagerState) : Bool :=
  s.browser.isSome || s.isPersistentContext

/-- `hasPages()`. -/
def hasPages (s : ManagerState) : Bool :=
  s.pages.length > 0

/-- `getPage()`: throws when no pages are tracked, otherwise returns the page
at the active index. -/
def getPageE (s : ManagerState) : Except String PageH :=
  if s.pages.isEmpty then .error "Browser not launched. Call launch first."
  else .ok (s.pages.getD s.activePageIndex default)

/-- `getCDPSession()`: cached session, else a new session attached to the
active page (session handle modelled by the page id it is bound to). -/
def getCDPSessionSt (s : ManagerState) : Except String (ManagerState × Nat) :=
  match s.cdpSession with
  | some c => .ok (s, c)
  | none =>
    match getPageE s with
    | .error e => .error e
    | .ok pg => .ok ({ s with cdpSession := some pg.id }, pg.id)

/-- `stopScreencast()`: silent no-op when inactive; otherwise sends
`Page.stopScreencast`, removes the frame listener (errors swallowed) and
resets the screencast fields. -/
def stopScreencast (m : MW) : MW :=
  if !m.1.screencastActive then m
  else
    match getCDPSessionSt m.1 with
    | .error _ =>
      ({ m.1 with screencastActive := false, frameCallback := false,
                  screencastFrameHandler := false }, m.2)
    | .ok (s1, _) =>
      ({ s1 with screencastActive := false, frameCallback := false,
                 screencastFrameHandler := false },
       { m.2 with cdpCommands := m.2.cdpCommands ++ ["Page.stopScreencast"] })

/-- `invalidateCDPSession()`: stop an active screencast first, then detach and
clear the CDP session. -/
def invalidateCDPSession (m : MW) : MW :=
  let m1 := if m.1.screencastActive then stopScreencast m else m
  ({ m1.1 with cdpSession := none }, m1.2)

/-- `startScreencast(callback, options)`: rejects when already active,
otherwise obtains a CDP session, installs the frame handler and sends
`Page.startScreencast`. -/
def startScreencast (m : MW) : MW × Except String Unit :=
  if m.1.screencastActive then (m, .error "Screencast already active")
  else
    match getCDPSessionSt m.1 with
    | .error e => (m, .error e)
    | .ok (s1, _) =>
      (({ s1 with frameCallback := true, screencastActive := true,
                  screencastFrameHandler := true },
        { m.2 with cdpCommands := m.2.cdpCommands ++ ["Page.startScreencast"] }),
       .ok ())

/-- The `page.on('close', ...)` handler installed by `setupPageTracking`:
remove the page from the tracked list and clamp the active index back into
range. -/
def pageClosedHandler (s : ManagerState) (p : PageH) : ManagerState :=
  if p ∈ s.pages then
    let pages1 := s.pages.erase p
    let a1 := if pages1.length ≤ s.activePageIndex then pages1.length - 1
              else s.activePageIndex
    { s with pages := pages1, activePageIndex := a1 }
  else s

/-- `closeTab(index?)`: validates the index, refuses to close the last tab,
invalidates the CDP session when closing the active tab, closes the page and
removes it from the sequence, then adjusts the active index. -/
def closeTab (m : MW) (idx : Option Nat) : MW × Except String (Nat × Nat) :=
  let targetIndex := idx.getD m.1.activePageIndex
  if m.1.pages.length ≤ targetIndex then
    (m, .error ("Invalid tab index: " ++ toString targetIndex))
  else if m.1.pages.length == 1 then
    (m, .error "Cannot close the last tab. Use \"close\" to close the browser.")
  else
    let m1 := if targetIndex == m.1.activePageIndex then invalidateCDPSession m else m
    let pg := m1.1.pages.getD targetIndex default
    let w1 := { m1.2 with pageCloseCalls := m1.2.pageCloseCalls ++ [pg.id] }
    let pages1 := m1.1.pages.eraseIdx targetIndex
    let a := m1.1.activePageIndex
    let a1 := if pages1.length ≤ a then pages1.length - 1
              else if targetIndex < a then a - 1
              else a
    (({ m1.1 with pages := pages1, activePageIndex := a1 }, w1),
     .ok (targetIndex, pages1.length))

/-- `ensurePage()`: no-op when pages exist or nothing is launched; otherwise
create a page on the last known context, or on a fresh context when a browser
handle exists and no context does. -/
def ensurePage (s : ManagerState) : ManagerState :=
  if 0 < s.pages.length then s
  else if s.browser.isNone ∧ ¬ s.isPersistentContext then s
  else
    match s.contexts.getLast? with
    | some c =>
      let p : PageH := ⟨s.nextId, c⟩
      { s with pages := s.pages ++ [p], nextId := s.nextId + 1,
               activePageIndex := (s.pages ++ [p]).length - 1 }
    | none =>
      match s.browser with
      | some _ =>
        let c := s.nextId
        let p : PageH := ⟨s.nextId + 1, c⟩
        { s with contexts := s.contexts ++ [c],
                 pages := s.pages ++ [p],
                 nextId := s.nextId + 2,
                 activePageIndex := (s.pages ++ [p]).length - 1 }
      | none => s

/-- `newTab()`: requires a browser handle and a context, invalidates the CDP
session, creates a page in the first context and makes it active. -/
def newTab (m : MW) : MW × Except String (Nat × Nat) :=
  if m.1.browser.isNone || m.1.contexts.isEmpty then
    (m, .error "Browser not launched")
  else
    let m1 := invalidateCDPSession m
    let c := m1.1.contexts.getD 0 0
    let p : PageH := ⟨m1.1.nextId, c⟩
    let pages1 := m1.1.pages ++ [p]
    (({ m1.1 with pages := pages1, nextId := m1.1.nextId + 1,
                  activePageIndex := pages1.length - 1 }, m1.2),
     .ok (pages1.length - 1, pages1.length))

/-- `newWindow(viewport?)`: requires a browser handle, creates a fresh context
and a page in it and makes the page active. -/
def newWindow (m : MW) : MW × Except String (Nat × Nat) :=
  if m.1.browser.isNone then
    (m, .error "Browser not launched")
  else
    let c := m.1.nextId
    let p : PageH := ⟨m.1.nextId + 1, c⟩
    let pages1 := m.1.pages ++ [p]
    (({ m.1 with contexts := m.1.contexts ++ [c], pages := pages1,
                 nextId := m.1.nextId + 2,
                 activePageIndex := pages1.length - 1 }, m.2),
     .ok (pages1.length - 1, pages1.length))

/-- JS `Map.get` over the `scopedHeaderRoutes` association list. -/
def mapGet (m : List (String × Nat × HeaderMap)) (k : String) :
    Option (Nat × HeaderMap) :=
  (m.find? (fun e => e.1 == k)).map (fun e => e.2)

/-- JS `Map.set`: overwrite the entry for the key, else append it. -/
def mapSet (m : List (String × Nat × HeaderMap)) (k : String)
    (v : Nat × HeaderMap) : List (String × Nat × HeaderMap) :=
  if m.any (fun e => e.1 == k) then
    m.map (fun e => if e.1 == k then (k, v) else e)
  else m ++ [(k, v)]

/-- Modelled from the spec: `safeHeaderMerge` lives in the state-utils module,
which is not among the repository files; per the spec it merges the given
headers into the existing request headers without discarding them, conflicting
keys favouring the new value. -/
def safeHeaderMerge (requestHeaders headers : HeaderMap) : HeaderMap :=
  requestHeaders.filter (fun e => !(headers.any (fun h => h.1 == e.1))) ++ headers

/-- JS `String.prototype.startsWith`, modelled over the character lists so it
evaluates inside the kernel. -/
def strStartsWith (s pre : String) : Bool :=
  List.isPrefixOf pre.data s.data

/-- URL pattern derivation of `setScopedHeaders`/`clearScopedHeaders`: parse
the origin as a URL (host extraction delegated to the external WHATWG parser
`parseUrlHost`), falling back to treating it as a bare hostname. -/
def urlPatternFor (parseUrlHost : String → Option String) (origin : String) :
    String :=
  match parseUrlHost (if strStartsWith origin "http" then origin
                      else "https://" ++ origin) with
  | some host => "**://" ++ host ++ "/**"
  | none => "**://" ++ origin ++ "/**"

/-- `setScopedHeaders(origin, headers)`: derive the pattern, unroute the
previously registered handler for that pattern if any, then store and register
a fresh handler whose closure captures `headers`. -/
def setScopedHeaders (parseUrlHost : String → Option String)
    (s : ManagerState) (origin : String) (headers : HeaderMap) :
    ManagerState × Except String Unit :=
  match getPageE s with
  | .error e => (s, .error e)
  | .ok pg =>
    let pat := urlPatternFor parseUrlHost origin
    let s1 :=
      match mapGet s.scopedHeaderRoutes pat with
      | some h =>
        { s with pageRoutes := (s.pageRoutes.filter
            (fun r => !(r.pageId == pg.id && r.urlPat == pat
                        && r.handlerId == h.1))) }
      | none => s
    let handlerId := s1.nextId
    let entry : RouteEntry := ⟨pg.id, pat, handlerId, headers⟩
    ({ s1 with
        scopedHeaderRoutes := mapSet s1.scopedHeaderRoutes pat (handlerId, headers),
        pageRoutes := s1.pageRoutes ++ [entry],
        nextId := s1.nextId + 1 },
     .ok ())

/-- JS `String.prototype.endsWith`, modelled over the character lists so it
evaluates inside the kernel. -/
def strEndsWith (s suffix : String) : Bool :=
  List.isSuffixOf suffix.data s.data


/-- `rmSync(p, { recursive: true, force: true })`: the path no longer exists
afterwards; removing a missing path is not an error. -/
def rmSyncFs (fs : List String) (p : String) : List String :=
  fs.filter (fun q => !(q == p))

/-- Outcomes of the external engine calls made while stopping a recording. -/
structure StopOracle where
  closePageOk : Bool := true
  videoPresent : Bool := true
  saveOk : Bool := true
  closeContextOk : Bool := true
  deriving DecidableEq, Repr, Inhabited

/-- The value resolved by `stopRecording`. -/
structure StopResult where
  path : String
  frames : Nat
  error : Option String := none
  deriving DecidableEq, Repr, Inhabited

/-- `startRecording(outputPath, url?)`: reject when already recording, when no
browser handle exists, when the output path exists, or when the extension is
not `.webm`; otherwise create the temp dir and the recording context+page,
track them, make the page active and invalidate the CDP session.  The fresh
temp directory name (session + timestamp) is supplied by `tempDirName`. -/
def startRecording (m : MW) (outputPath : String) (url : Option String)
    (tempDirName : String) : MW × Except String Unit :=
  if m.1.recordingContext.isSome then
    (m, .error "Recording already in progress. Run 'record stop' first, or use 'record restart' to stop and start a new recording.")
  else if m.1.browser.isNone then
    (m, .error "Browser not launched. Call launch first.")
  else if m.2.fs.contains outputPath then
    (m, .error ("Output file already exists: " ++ outputPath))
  else if !(strEndsWith outputPath ".webm") then
    (m, .error "Playwright native recording only supports WebM format. Please use a .webm extension.")
  else
    let c := m.1.nextId
    let p : PageH := ⟨m.1.nextId + 1, c⟩
    let pages1 := m.1.pages ++ [p]
    let s1 := { m.1 with
      recordingTempDir := tempDirName,
      recordingOutputPath := outputPath,
      recordingContext := some c,
      recordingPage := some p,
      contexts := m.1.contexts ++ [c],
      pages := pages1,
      activePageIndex := pages1.length - 1,
      nextId := m.1.nextId + 2 }
    (invalidateCDPSession (s1, { m.2 with fs := tempDirName :: m.2.fs }), .ok ())

/-- The `catch` block of `stopRecording`: remove the temp directory again,
reset the recording fields and return the error as a result field. -/
def stopRecordingCatch (s : ManagerState) (w : World) (outputPath msg : String) :
    MW × StopResult :=
  let w1 := if s.recordingTempDir ≠ "" then
              { w with fs := rmSyncFs w.fs s.recordingTempDir }
            else w
  (({ s with recordingContext := none, recordingPage := none,
             recordingOutputPath := "", recordingTempDir := "" }, w1),
   ⟨outputPath, 0, some msg⟩)

/-- `stopRecording()`: untrack the recording page/context, close the page
(finalizing the video), save it, remove the temp directory, close the
recording context, reset the recording fields and re-clamp the active index;
on any intermediate failure the catch block still removes the temp directory
and resets the fields, returning an `error` result instead of throwing. -/
def stopRecording (m : MW) (o : StopOracle) : MW × StopResult :=
  match m.1.recordingContext, m.1.recordingPage with
  | some rc, some rp =>
    let outputPath := m.1.recordingOutputPath
    let s1 := { m.1 with pages := m.1.pages.erase rp,
                         contexts := m.1.contexts.erase rc }
    let w1 := { m.2 with pageCloseCalls := m.2.pageCloseCalls ++ [rp.id] }
    if !o.closePageOk then
      stopRecordingCatch s1 w1 outputPath "page close failed"
    else if o.videoPresent && !o.saveOk then
      stopRecordingCatch s1 w1 outputPath "video save failed"
    else
      let w2 := if o.videoPresent then { w1 with fs := outputPath :: w1.fs } else w1
      let w3 := if s1.recordingTempDir ≠ "" then
                  { w2 with fs := rmSyncFs w2.fs s1.recordingTempDir }
                else w2
      let w4 := { w3 with contextCloseCalls := w3.contextCloseCalls ++ [rc] }
      if !o.closeContextOk then
        stopRecordingCatch s1 w4 outputPath "context close failed"
      else
        let s2 := { s1 with recordingContext := none, recordingPage := none,
                            recordingOutputPath := "", recordingTempDir := "" }
        let s3 := { s2 with activePageIndex :=
                      (if 0 < s2.pages.length then
                        min s2.activePageIndex (s2.pages.length - 1)
                      else 0) }
        (invalidateCDPSession (s3, w4), ⟨outputPath, 0, none⟩)
  | _, _ => (m, ⟨"", 0, some "No recording in progress"⟩)

/-- Tab registry events: an externally delivered page `close` event, or a
caller `closeTab` call. -/
inductive TabEvent where
  | closed (p : PageH)
  | closeTabAt (idx : Option Nat)
  deriving DecidableEq, Repr

/-- One registry step (a failing `closeTab` leaves the state unchanged). -/
def tabStep (m : MW) : TabEvent → MW
  | .closed p => (pageClosedHandler m.1 p, m.2)
  | .closeTabAt idx => (closeTab m idx).1

/-- A sequence of registry events. -/
def runTabEvents (m : MW) : List TabEvent → MW :=
  List.foldl tabStep m

theorem getCDPSessionSt_ok {s s1 : ManagerState} {c : Nat}
    (h : getCDPSessionSt s = .ok (s1, c)) :
    s1 = { s with cdpSession := some c } := by
  unfold getCDPSessionSt at h
  rcases hc : s.cdpSession with _ | c0 <;> rw [hc] at h
  · rcases hp : getPageE s with e2 | pg <;> rw [hp] at h
    · cases h
    · cases h; rfl
  · cases h
    cases s
    simp_all

theorem stopScreencast_pages (m : MW) :
    (stopScreencast m).1.pages = m.1.pages ∧
    (stopScreencast m).1.activePageIndex = m.1.activePageIndex := by
  unfold stopScreencast
  by_cases hA : m.1.screencastActive
  · simp only [hA, Bool.not_true, Bool.false_eq_true, if_false]
    rcases h : getCDPSessionSt m.1 with e | p
    · simp
    · rcases p with ⟨s1, c⟩
      have hs := getCDPSessionSt_ok h
      subst hs
      simp
  · simp [hA]

theorem invalidateCDPSession_pages (m : MW) :
    (invalidateCDPSession m).1.pages = m.1.pages ∧
    (invalidateCDPSession m).1.activePageIndex = m.1.activePageIndex := by
  unfold invalidateCDPSession
  by_cases hA : m.1.screencastActive
  · simp only [hA, if_true]
    have := stopScreencast_pages m
    simpa using this
  · simp [hA]

theorem closeTab_invalid (m : MW) (idx : Option Nat)
    (h1 : m.1.pages.length ≤ idx.getD m.1.activePageIndex) :
    closeTab m idx =
      (m, .error ("Invalid tab index: " ++ toString (idx.getD m.1.activePageIndex))) := by
  unfold closeTab
  simp [h1]

theorem closeTab_last_error (m : MW) (idx : Option Nat)
    (h1 : ¬ m.1.pages.length ≤ idx.getD m.1.activePageIndex)
    (h2 : m.1.pages.length = 1) :
    closeTab m idx =
      (m, .error "Cannot close the last tab. Use \"close\" to close the browser.") := by
  have h0 : idx.getD m.1.activePageIndex = 0 := by omega
  unfold closeTab
  simp [h0, h2]

theorem closeTab_ok_shape (m : MW) (idx : Option Nat)
    (h1 : ¬ m.1.pages.length ≤ idx.getD m.1.activePageIndex)
    (h2 : m.1.pages.length ≠ 1) :
    (closeTab m idx).1.1.pages
        = m.1.pages.eraseIdx (idx.getD m.1.activePageIndex) ∧
    (closeTab m idx).1.1.activePageIndex =
      (if (m.1.pages.eraseIdx (idx.getD m.1.activePageIndex)).length
            ≤ m.1.activePageIndex
       then (m.1.pages.eraseIdx (idx.getD m.1.activePageIndex)).length - 1
       else if idx.getD m.1.activePageIndex < m.1.activePageIndex
            then m.1.activePageIndex - 1
            else m.1.activePageIndex) := by
  have h2b : (m.1.pages.length == 1) = false := by simp [h2]
  unfold closeTab
  simp only [h1, if_false, h2b, Bool.false_eq_true]
  by_cases h3 : (idx.getD m.1.activePageIndex == m.1.activePageIndex) = true
  · simp only [h3, if_true]
    have hp := invalidateCDPSession_pages m
    simp [hp.1, hp.2]
  · simp only [h3]
    simp

theorem tabStep_clamps (m : MW) (e : TabEvent)
    (hlt : (tabStep m e).1.pages.length < m.1.pages.length)
    (hne : (tabStep m e).1.pages ≠ []) :
    (tabStep m e).1.activePageIndex < (tabStep m e).1.pages.length := by
  cases e with
  | closed p =>
    dsimp only [tabStep] at hlt hne ⊢
    by_cases hp : p ∈ m.1.pages
    · have h0 : 0 < (pageClosedHandler m.1 p).pages.length :=
        List.length_pos.mpr hne
      unfold pageClosedHandler at h0 ⊢
      simp only [hp, if_true] at h0 ⊢
      by_cases hc : (m.1.pages.erase p).length ≤ m.1.activePageIndex
      · simp only [hc, if_true] at h0 ⊢
        omega
      · simp only [hc, if_false] at h0 ⊢
        omega
    · unfold pageClosedHandler at hlt
      simp only [hp, if_false] at hlt
      omega
  | closeTabAt idx =>
    dsimp only [tabStep] at hlt hne ⊢
    by_cases h1 : m.1.pages.length ≤ idx.getD m.1.activePageIndex
    · rw [closeTab_invalid m idx h1] at hlt
      simp at hlt
    · by_cases h2 : m.1.pages.length = 1
      · rw [closeTab_last_error m idx h1 h2] at hlt
        simp at hlt
      · obtain ⟨hpg, hai⟩ := closeTab_ok_shape m idx h1 h2
        rw [hpg, hai]
        have hlen : (m.1.pages.eraseIdx (idx.getD m.1.activePageIndex)).length
            = m.1.pages.length - 1 :=
          List.length_eraseIdx_of_lt (by omega)
        rw [hpg] at hne
        have h0 : 0 < (m.1.pages.eraseIdx (idx.getD m.1.activePageIndex)).length :=
          List.length_pos.mpr hne
        by_cases hc : (m.1.pages.eraseIdx (idx.getD m.1.activePageIndex)).length
            ≤ m.1.activePageIndex
      -- after clamping, the index is strictly below the new length
        · simp only [hc, if_true]
          omega
        · simp only [hc, if_false]
          by_cases hd : idx.getD m.1.activePageIndex < m.1.activePageIndex
          · simp only [hd, if_true]
            omega
          · simp only [hd, if_false]
            omega

/-- C1: along any sequence of page-closed events and `closeTab` calls, a
"page closed" event removes exactly that page from the tracked sequence, and
any step that removes a page leaves the active index in range whenever the
sequence is non-empty: non-negative (it is a `Nat`), strictly below the new
length, and pointing at a live entry of the sequence. -/
theorem pageClosed_removes_and_reClamps (m : MW) (pre : List TabEvent)
    (e : TabEvent) :
    (∀ p, (pageClosedHandler (runTabEvents m pre).1 p).pages
        = (runTabEvents m pre).1.pages.erase p) ∧
    ((tabStep (runTabEvents m pre) e).1.pages.length
        < (runTabEvents m pre).1.pages.length →
      (tabStep (runTabEvents m pre) e).1.pages ≠ [] →
      (tabStep (runTabEvents m pre) e).1.activePageIndex
          < (tabStep (runTabEvents m pre) e).1.pages.length ∧
      ((tabStep (runTabEvents m pre) e).1.pages.get?
          (tabStep (runTabEvents m pre) e).1.activePageIndex).isSome = true) := by
  constructor
  · intro p
    unfold pageClosedHandler
    by_cases hp : p ∈ (runTabEvents m pre).1.pages
    · simp [hp]
    · simp [hp, List.erase_of_not_mem hp]
  · intro hlt hne
    have hc := tabStep_clamps (runTabEvents m pre) e hlt hne
    refine ⟨hc, ?_⟩
    rw [List.get?_eq_getElem?, List.getElem?_eq_getElem hc]
    rfl

/-- Concrete states used by the claim witnesses. -/
def samplePages : List PageH := [⟨1, 0⟩, ⟨2, 0⟩, ⟨3, 0⟩]

def sampleState : ManagerState :=
  { browser := some 9, contexts := [0], pages := samplePages,
    activePageIndex := 2, nextId := 10 }

def sampleMW : MW := (sampleState, {})

theorem pageClosed_removes_and_reClamps_witness :
    (pageClosedHandler (runTabEvents sampleMW []).1 ⟨3, 0⟩).pages
        = (runTabEvents sampleMW []).1.pages.erase ⟨3, 0⟩ ∧
    (tabStep (runTabEvents sampleMW []) (.closed ⟨3, 0⟩)).1.activePageIndex
        < (tabStep (runTabEvents sampleMW []) (.closed ⟨3, 0⟩)).1.pages.length := by
  have h := pageClosed_removes_and_reClamps sampleMW [] (.closed ⟨3, 0⟩)
  exact ⟨h.1 ⟨3, 0⟩, (h.2 (by decide) (by decide)).1⟩

/-- C6: with exactly one tracked page, `closeTab` (with any in-range index, or
none while the active index is the sole index 0) fails with the dedicated
last-tab error, which names `close` as the way to close the whole session, and
leaves the state unchanged. -/
theorem closeTab_lastTab_rejected (m : MW) (idx : Option Nat)
    (hlen : m.1.pages.length = 1)
    (hnone : idx = none → m.1.activePageIndex = 0)
    (hsome : ∀ i, idx = some i → i < m.1.pages.length) :
    closeTab m idx =
      (m, .error "Cannot close the last tab. Use \"close\" to close the browser.") := by
  have htgt : idx.getD m.1.activePageIndex < m.1.pages.length := by
    cases idx with
    | none => simp [hnone rfl, hlen]
    | some i => simpa using hsome i rfl
  exact closeTab_last_error m idx (by omega) hlen

def lastTabState : ManagerState :=
  { browser := some 9, contexts := [0], pages := [⟨1, 0⟩],
    activePageIndex := 0, nextId := 10 }

theorem closeTab_lastTab_rejected_witness :
    closeTab (lastTabState, {}) none =
      ((lastTabState, {}),
       .error "Cannot close the last tab. Use \"close\" to close the browser.") :=
  closeTab_lastTab_rejected (lastTabState, {}) none (by decide) (fun _ => by decide)
    (fun i h => by cases h)

/-- Well-formedness maintained by every operation of the manager (the
`WF_*` preservation lemmas below): a persistent-context session has no
browser handle and keeps at least one tracked context, an active recording
implies a browser handle, and the recording context and page are set
together. -/
def WF (s : ManagerState) : Prop :=
  (s.isPersistentContext = true → s.browser = none ∧ s.contexts ≠ []) ∧
  (s.recordingContext.isSome = true → s.browser.isSome = true) ∧
  (s.recordingContext.isSome = s.recordingPage.isSome)

/-- C2: from a well-formed state with no tracked pages while `isLaunched()`
reports true, `ensurePage` creates exactly one page — on the most recently
known context when one exists, else on a fresh context — and makes it active;
when pages exist, `ensurePage` is a no-op. -/
theorem ensurePage_stale_session_recovery (s : ManagerState) (hwf : WF s) :
    (s.pages = [] → isLaunched s = true →
      (ensurePage s).pages.length = 1 ∧
      (ensurePage s).activePageIndex = 0 ∧
      (∀ c, s.contexts.getLast? = some c →
        (ensurePage s).contexts = s.contexts ∧
        (ensurePage s).pages = [⟨s.nextId, c⟩]) ∧
      (s.contexts = [] →
        (ensurePage s).contexts = [s.nextId] ∧
        (ensurePage s).pages = [⟨s.nextId + 1, s.nextId⟩])) ∧
    (s.pages ≠ [] → ensurePage s = s) := by
  constructor
  · intro hpages hl
    have hguard : ¬ 0 < s.pages.length := by simp [hpages]
    have hl2 : s.browser.isSome = true ∨ s.isPersistentContext = true := by
      simpa [isLaunched] using hl
    have hlaunch : ¬ (s.browser.isNone ∧ ¬ s.isPersistentContext) := by
      rcases hl2 with hb | hp
      · intro hcontra
        rw [Option.isNone_iff_eq_none.mp hcontra.1] at hb
        simp at hb
      · intro hcontra
        exact hcontra.2 hp
    cases hc : s.contexts.getLast? with
    | some c =>
      have hs : ensurePage s =
          { s with pages := [⟨s.nextId, c⟩],
                   nextId := s.nextId + 1, activePageIndex := 0 } := by
        unfold ensurePage
        rw [if_neg hguard, if_neg hlaunch, hc]
        simp [hpages]
      rw [hs]
      refine ⟨by simp, by simp, ?_, ?_⟩
      · intro c2 hc2
        cases hc2
        exact ⟨rfl, rfl⟩
      · intro hctx
        rw [hctx] at hc
        simp at hc
    | none =>
      have hctx : s.contexts = [] := List.getLast?_eq_none_iff.mp hc
      cases hb : s.browser with
      | some b =>
        have hs : ensurePage s =
            { s with contexts := s.contexts ++ [s.nextId],
                     pages := [⟨s.nextId + 1, s.nextId⟩],
                     nextId := s.nextId + 2, activePageIndex := 0 } := by
          unfold ensurePage
          rw [if_neg hguard, if_neg hlaunch, hc, hb]
          simp [hpages]
        rw [hs]
        refine ⟨by simp, by simp, ?_, ?_⟩
        · intro c2 hc2
          simp at hc2
        · intro _
          exact ⟨by simp [hctx], rfl⟩
      | none =>
        exfalso
        rcases hl2 with hb2 | hp2
        · rw [hb] at hb2
          simp at hb2
        · exact (hwf.1 hp2).2 hctx
  · intro hne
    unfold ensurePage
    rw [if_pos (List.length_pos.mpr hne)]

def emptyLaunchedState : ManagerState :=
  { browser := some 7, contexts := [3], pages := [], activePageIndex := 0,
    nextId := 8 }

theorem ensurePage_stale_session_recovery_witness :
    ((ensurePage emptyLaunchedState).pages.length = 1 ∧
     (ensurePage emptyLaunchedState).activePageIndex = 0) ∧
    ensurePage sampleState = sampleState := by
  have h1 := ensurePage_stale_session_recovery emptyLaunchedState
    (by simp [WF, emptyLaunchedState])
  have h2 := ensurePage_stale_session_recovery sampleState
    (by simp [WF, sampleState])
  have h1a := h1.1 (by decide) (by decide)
  exact ⟨⟨h1a.1, h1a.2.1⟩, h2.2 (by decide)⟩

/-- C7: each `startRecording` rejection (already recording, browser not
launched, output path exists, extension not `.webm`) errors before any
recording context, page or temp directory is created: manager state and world
are unchanged. -/
theorem startRecording_rejects_before_side_effects (m : MW)
    (outputPath : String) (url : Option String) (tmp : String)
    (h : m.1.recordingContext.isSome = true ∨ m.1.browser = none ∨
         outputPath ∈ m.2.fs ∨
         strEndsWith outputPath ".webm" = false) :
    (startRecording m outputPath url tmp).1 = m ∧
    ∃ msg, (startRecording m outputPath url tmp).2 = .error msg := by
  unfold startRecording
  by_cases h1 : m.1.recordingContext.isSome = true
  · simp [h1]
  · by_cases h2 : m.1.browser.isNone = true
    · simp [h1, h2]
    · by_cases h3 : outputPath ∈ m.2.fs
      · simp [h1, h2, h3]
      · by_cases h4 : strEndsWith outputPath ".webm" = true
        · exfalso
          rcases h with h | h | h | h
          · exact h1 h
          · rw [h] at h2
            exact h2 rfl
          · exact h3 h
          · rw [h4] at h
            cases h
        · simp [h1, h2, h3, h4]

def recStartState : ManagerState :=
  { browser := some 7, contexts := [3], pages := [⟨1, 3⟩], activePageIndex := 0,
    nextId := 8 }

theorem startRecording_rejects_before_side_effects_witness :
    (startRecording (recStartState, {}) "out.mp4" none "tmp1").1
        = (recStartState, {}) ∧
    ∃ msg, (startRecording (recStartState, {}) "out.mp4" none "tmp1").2
        = .error msg :=
  startRecording_rejects_before_side_effects (recStartState, {}) "out.mp4" none
    "tmp1" (Or.inr (Or.inr (Or.inr (by decide))))

/-- C9: starting a screencast while one is active fails with "Screencast
already active" and changes nothing (state and world are returned untouched);
stopping while none is active returns without error, without state change and
without issuing any CDP command. -/
theorem screencast_start_stop_guards (m : MW) :
    (m.1.screencastActive = true →
      startScreencast m = (m, .error "Screencast already active")) ∧
    (m.1.screencastActive = false →
      stopScreencast m = m) := by
  constructor
  · intro h
    unfold startScreencast
    rw [if_pos h]
  · intro h
    unfold stopScreencast
    simp [h]

def screencastOnState : ManagerState :=
  { browser := some 7, contexts := [3], pages := [⟨1, 3⟩], activePageIndex := 0,
    cdpSession := some 1, screencastActive := true, frameCallback := true,
    screencastFrameHandler := true, nextId := 8 }

theorem screencast_start_stop_guards_witness :
    startScreencast ((screencastOnState, {}) : MW)
        = ((screencastOnState, {}), .error "Screencast already active") ∧
    stopScreencast ((recStartState, {}) : MW) = (recStartState, {}) :=
  ⟨(screencast_start_stop_guards (screencastOnState, {})).1 rfl,
   (screencast_start_stop_guards (recStartState, {})).2 rfl⟩

/-- C10: a persistent-context session (extensions or profile launch) reports
`isLaunched()` true while the browser handle is null, and in that state
`newTab`, `newWindow` and `startRecording` all throw a "Browser not launched"
error. -/
theorem persistent_context_ops_unavailable (m : MW)
    (hp : m.1.isPersistentContext = true) (hb : m.1.browser = none)
    (hr : m.1.recordingContext = none) :
    isLaunched m.1 = true ∧
    (newTab m).2 = .error "Browser not launched" ∧
    (newWindow m).2 = .error "Browser not launched" ∧
    (∀ outputPath url tmp, (startRecording m outputPath url tmp).2
        = .error "Browser not launched. Call launch first.") := by
  refine ⟨?_, ?_, ?_, ?_⟩
  · unfold isLaunched
    simp [hp]
  · unfold newTab
    simp [hb]
  · unfold newWindow
    simp [hb]
  · intro outputPath url tmp
    unfold startRecording
    simp [hr, hb]

def persistentState : ManagerState :=
  { browser := none, isPersistentContext := true, contexts := [3],
    pages := [⟨1, 3⟩], activePageIndex := 0, nextId := 8 }

theorem persistent_context_ops_unavailable_witness :
    isLaunched persistentState = true ∧
    (newTab (persistentState, {})).2 = .error "Browser not launched" ∧
    (startRecording (persistentState, {}) "o.webm" none "t").2
        = .error "Browser not launched. Call launch first." := by
  have h := persistent_context_ops_unavailable (persistentState, {}) rfl rfl rfl
  exact ⟨h.1, h.2.1, h.2.2.2 "o.webm" none "t"⟩

/-- The page that `getPage()` returns in a state with pages. -/
def activePg (s : ManagerState) : PageH :=
  s.pages.getD s.activePageIndex default

/-- Does a registered route belong to this page and URL pattern? -/
def isScopedRuleFor (pg : PageH) (pat : String) (r : RouteEntry) : Bool :=
  r.pageId == pg.id && r.urlPat == pat

theorem find?_map_replace (t : List (String × Nat × HeaderMap)) (k : String)
    (v : Nat × HeaderMap) :
    (t.map (fun e => if e.1 == k then (k, v) else e)).find? (fun e => e.1 == k)
      = if t.any (fun e => e.1 == k) then some (k, v) else none := by
  induction t with
  | nil => simp
  | cons e t ih =>
    by_cases he : e.1 = k
    · simp [he]
    · have hbe : (e.1 == k) = false := by simp [he]
      have hhead : (if e.1 == k then (k, v) else e) = e := by simp [hbe]
      rw [List.map_cons, hhead, List.find?_cons_of_neg _ (by simp [hbe]), ih,
         List.any_cons, hbe, Bool.false_or]

theorem mapGet_mapSet_self (m : List (String × Nat × HeaderMap)) (k : String)
    (v : Nat × HeaderMap) :
    mapGet (mapSet m k v) k = some v := by
  unfold mapGet mapSet
  by_cases h : m.any (fun e => e.1 == k) = true
  · rw [if_pos h, find?_map_replace, if_pos h]
    rfl
  · have hf : m.find? (fun e => e.1 == k) = none := by
      rw [List.find?_eq_none]
      intro x hx hpx
      exact h (List.any_eq_true.mpr ⟨x, hx, hpx⟩)
    rw [if_neg h]
    rw [List.find?_append, hf]
    simp

theorem getPageE_of_ne_nil {s : ManagerState} (hne : s.pages ≠ []) :
    getPageE s = .ok (activePg s) := by
  unfold getPageE activePg
  have hie : s.pages.isEmpty = false := by
    cases hp2 : s.pages with
    | nil => exact absurd hp2 hne
    | cons a t => rfl
  rw [hie]
  rfl

/-- One `setScopedHeaders` call from a state whose routes for the derived
pattern on the active page agree with the `scopedHeaderRoutes` map: afterwards
exactly one rule is registered for that pattern on the page, carrying the new
headers, the map points to it, and everything the tab registry sees is
untouched. -/
theorem setScopedHeaders_shape (parseUrlHost : String → Option String)
    (s : ManagerState) (origin : String) (hdrs : HeaderMap)
    (hne : s.pages ≠ [])
    (hcons : ∀ r ∈ s.pageRoutes,
      r.pageId = (activePg s).id →
      r.urlPat = urlPatternFor parseUrlHost origin →
      mapGet s.scopedHeaderRoutes (urlPatternFor parseUrlHost origin)
        = some (r.handlerId, r.headers)) :
    (setScopedHeaders parseUrlHost s origin hdrs).2 = .ok () ∧
    (setScopedHeaders parseUrlHost s origin hdrs).1.pageRoutes.filter
        (isScopedRuleFor (activePg s) (urlPatternFor parseUrlHost origin))
      = [⟨(activePg s).id, urlPatternFor parseUrlHost origin, s.nextId, hdrs⟩] ∧
    mapGet (setScopedHeaders parseUrlHost s origin hdrs).1.scopedHeaderRoutes
        (urlPatternFor parseUrlHost origin) = some (s.nextId, hdrs) ∧
    (setScopedHeaders parseUrlHost s origin hdrs).1.pages = s.pages ∧
    (setScopedHeaders parseUrlHost s origin hdrs).1.activePageIndex
        = s.activePageIndex ∧
    (setScopedHeaders parseUrlHost s origin hdrs).1.nextId = s.nextId + 1 := by
  have hpg := getPageE_of_ne_nil hne
  unfold setScopedHeaders
  rw [hpg]
  cases hg : mapGet s.scopedHeaderRoutes (urlPatternFor parseUrlHost origin) with
  | some h0 =>
    have hfilter : (s.pageRoutes.filter
        (fun r => !(r.pageId == (activePg s).id
                    && r.urlPat == urlPatternFor parseUrlHost origin
                    && r.handlerId == h0.1))).filter
        (isScopedRuleFor (activePg s) (urlPatternFor parseUrlHost origin))
        = [] := by
      apply List.filter_eq_nil_iff.mpr
      intro r hr hP
      have hr2 := List.mem_filter.mp hr
      have hPr : r.pageId = (activePg s).id
          ∧ r.urlPat = urlPatternFor parseUrlHost origin := by
        unfold isScopedRuleFor at hP
        simpa using hP
      have hm := hcons r hr2.1 hPr.1 hPr.2
      rw [hg] at hm
      have hid : h0.1 = r.handlerId := by
        cases hm
        rfl
      have : (!(r.pageId == (activePg s).id
                && r.urlPat == urlPatternFor parseUrlHost origin
                && r.handlerId == h0.1)) = false := by
        simp [hPr.1, hPr.2, hid]
      rw [this] at hr2
      exact Bool.false_ne_true hr2.2
    simp only [hg]
    refine ⟨trivial, ?_, ?_, trivial, trivial, trivial⟩
    · rw [List.filter_append, hfilter]
      simp [isScopedRuleFor]
    · exact mapGet_mapSet_self _ _ _
  | none =>
    have hfilter : s.pageRoutes.filter
        (isScopedRuleFor (activePg s) (urlPatternFor parseUrlHost origin))
        = [] := by
      apply List.filter_eq_nil_iff.mpr
      intro r hr hP
      have hPr : r.pageId = (activePg s).id
          ∧ r.urlPat = urlPatternFor parseUrlHost origin := by
        unfold isScopedRuleFor at hP
        simpa using hP
      have hm := hcons r hr hPr.1 hPr.2
      rw [hg] at hm
      cases hm
    simp only [hg]
    refine ⟨trivial, ?_, ?_, trivial, trivial, trivial⟩
    · rw [List.filter_append, hfilter]
      simp [isScopedRuleFor]
    · exact mapGet_mapSet_self _ _ _

/-- C8, amended: two consecutive `setScopedHeaders` calls for the same origin
leave exactly one registered interception rule for that origin's URL pattern on
the active page, carrying the second call's headers, PROVIDED every existing
rule for the pattern on the active page agrees with the `scopedHeaderRoutes`
map (`hcons`) — e.g. when all prior calls for the origin were made on the
current tab. The hypothesis is not an invariant of the manager: interleaving a
tab switch breaks it, and then a stale rule survives the replacement (see
`setScopedHeaders_stacks_across_tabs_counterexample`). Under `hcons`, the
first handler (id `s.nextId`) is detached and only the second
(id `s.nextId + 1`, capturing `h2`) remains, with the map pointing at it. -/
theorem setScopedHeaders_replaces_not_stacks
    (parseUrlHost : String → Option String) (s : ManagerState)
    (origin : String) (h1 h2 : HeaderMap)
    (hne : s.pages ≠ [])
    (hcons : ∀ r ∈ s.pageRoutes,
      r.pageId = (activePg s).id →
      r.urlPat = urlPatternFor parseUrlHost origin →
      mapGet s.scopedHeaderRoutes (urlPatternFor parseUrlHost origin)
        = some (r.handlerId, r.headers)) :
    ((setScopedHeaders parseUrlHost
        (setScopedHeaders parseUrlHost s origin h1).1 origin h2).1.pageRoutes.filter
        (isScopedRuleFor (activePg s) (urlPatternFor parseUrlHost origin))
      = [⟨(activePg s).id, urlPatternFor parseUrlHost origin, s.nextId + 1, h2⟩]) ∧
    mapGet (setScopedHeaders parseUrlHost
        (setScopedHeaders parseUrlHost s origin h1).1 origin h2).1.scopedHeaderRoutes
        (urlPatternFor parseUrlHost origin) = some (s.nextId + 1, h2) := by
  obtain ⟨_, hAfilter, hAmap, hApages, hAactive, hAnext⟩ :=
    setScopedHeaders_shape parseUrlHost s origin h1 hne hcons
  have hpgA : activePg (setScopedHeaders parseUrlHost s origin h1).1 = activePg s := by
    unfold activePg
    rw [hApages, hAactive]
  have hneA : (setScopedHeaders parseUrlHost s origin h1).1.pages ≠ [] := by
    rw [hApages]
    exact hne
  have hconsA : ∀ r ∈ (setScopedHeaders parseUrlHost s origin h1).1.pageRoutes,
      r.pageId = (activePg (setScopedHeaders parseUrlHost s origin h1).1).id →
      r.urlPat = urlPatternFor parseUrlHost origin →
      mapGet (setScopedHeaders parseUrlHost s origin h1).1.scopedHeaderRoutes
        (urlPatternFor parseUrlHost origin) = some (r.handlerId, r.headers) := by
    intro r hr hrp hru
    rw [hpgA] at hrp
    have hrP : isScopedRuleFor (activePg s)
        (urlPatternFor parseUrlHost origin) r = true := by
      unfold isScopedRuleFor
      simp [hrp, hru]
    have hrmem : r ∈ (setScopedHeaders parseUrlHost s origin h1).1.pageRoutes.filter
        (isScopedRuleFor (activePg s) (urlPatternFor parseUrlHost origin)) :=
      List.mem_filter.mpr ⟨hr, hrP⟩
    rw [hAfilter] at hrmem
    have hre := List.mem_singleton.mp hrmem
    rw [hre, hAmap]
  obtain ⟨_, hBfilter, hBmap, _, _, _⟩ :=
    setScopedHeaders_shape parseUrlHost
      (setScopedHeaders parseUrlHost s origin h1).1 origin h2 hneA hconsA
  rw [hpgA] at hBfilter
  rw [hAnext] at hBfilter hBmap
  exact ⟨hBfilter, hBmap⟩

def routeState : ManagerState :=
  { browser := some 7, contexts := [3], pages := [⟨1, 3⟩], activePageIndex := 0,
    nextId := 8 }

theorem setScopedHeaders_replaces_not_stacks_witness :
    ((setScopedHeaders (fun _ => none)
        (setScopedHeaders (fun _ => none) routeState "api.example.com"
          [("x-a", "1")]).1 "api.example.com" [("x-a", "2")]).1.pageRoutes.filter
        (isScopedRuleFor (activePg routeState)
          (urlPatternFor (fun _ => none) "api.example.com"))
      = [⟨(activePg routeState).id,
          urlPatternFor (fun _ => none) "api.example.com", 9, [("x-a", "2")]⟩]) ∧
    mapGet (setScopedHeaders (fun _ => none)
        (setScopedHeaders (fun _ => none) routeState "api.example.com"
          [("x-a", "1")]).1 "api.example.com" [("x-a", "2")]).1.scopedHeaderRoutes
        (urlPatternFor (fun _ => none) "api.example.com")
      = some (9, [("x-a", "2")]) := by
  have h := setScopedHeaders_replaces_not_stacks (fun _ => none) routeState
    "api.example.com" [("x-a", "1")] [("x-a", "2")] (by simp [routeState])
    (by intro r hr; simp [routeState] at hr)
  exact ⟨h.1, h.2⟩

/- Trace refuting the unconditional reading of C8: set headers for an origin
on tab 0, open a new tab, set headers for the same origin there, close that
tab back to tab 0.  The manager-wide `scopedHeaderRoutes` map now points at
the second tab's handler, so the `page.unroute` issued by the next call on
tab 0 names a handler that was never attached to tab 0 and detaches
nothing. -/

def routeS1 : ManagerState :=
  (setScopedHeaders (fun _ => none) routeState "api.example.com"
    [("x-a", "0")]).1

def routeS2 : MW := (newTab (routeS1, {})).1

def routeS3 : ManagerState :=
  (setScopedHeaders (fun _ => none) routeS2.1 "api.example.com"
    [("x-b", "9")]).1

def routeS4 : ManagerState := (closeTab (routeS3, routeS2.2) (some 1)).1.1

def routeS5 : ManagerState :=
  (setScopedHeaders (fun _ => none) routeS4 "api.example.com"
    [("x-a", "1")]).1

def routeS6 : ManagerState :=
  (setScopedHeaders (fun _ => none) routeS5 "api.example.com"
    [("x-a", "2")]).1

/-- C8 counterexample: the consistency hypothesis of the C8 theorem is not an
invariant.  Starting from `routeState` and using only modelled operations
(set-headers on tab 0, `newTab`, set-headers for the same origin on tab 1,
`closeTab` back to tab 0), two consecutive `setScopedHeaders` calls for
"api.example.com" on the active page (`routeS5`, `routeS6`) leave TWO
registered interception rules for the origin's pattern on that page, the
stale one still carrying the very first call's headers: the code's
`page.unroute(urlPattern, existingHandler)` uses the manager-wide map's
handler, which belongs to the other tab, so the rule registered on tab 0 in
the first era is never detached. -/
theorem setScopedHeaders_stacks_across_tabs_counterexample :
    routeS6.pageRoutes.filter
        (isScopedRuleFor (activePg routeS6)
          (urlPatternFor (fun _ => none) "api.example.com"))
      = [⟨1, "**://api.example.com/**", 8, [("x-a", "0")]⟩,
         ⟨1, "**://api.example.com/**", 12, [("x-a", "2")]⟩] ∧
    (routeS6.pageRoutes.filter
        (isScopedRuleFor (activePg routeS6)
          (urlPatternFor (fun _ => none) "api.example.com"))).length ≠ 1 := by
  constructor
  · rfl
  · intro h
    rw [show routeS6.pageRoutes.filter
        (isScopedRuleFor (activePg routeS6)
          (urlPatternFor (fun _ => none) "api.example.com"))
      = [⟨1, "**://api.example.com/**", 8, [("x-a", "0")]⟩,
         ⟨1, "**://api.example.com/**", 12, [("x-a", "2")]⟩] from rfl] at h
    simp at h

/-- Closed form of `invalidateCDPSession`: the CDP session is cleared, an
active screencast is stopped (issuing the stop command when a session is
available), and nothing else changes. -/
theorem invalidateCDPSession_eq (m : MW) :
    invalidateCDPSession m =
      ({ m.1 with
          cdpSession := none
          screencastActive := false
          frameCallback := (if m.1.screencastActive then false
                            else m.1.frameCallback)
          screencastFrameHandler := (if m.1.screencastActive then false
                                     else m.1.screencastFrameHandler) },
       { m.2 with
          cdpCommands := m.2.cdpCommands ++
            (if m.1.screencastActive
                && (m.1.cdpSession.isSome || !m.1.pages.isEmpty)
             then ["Page.stopScreencast"] else []) }) := by
  unfold invalidateCDPSession stopScreencast getCDPSessionSt getPageE
  by_cases hA : m.1.screencastActive
  · cases hcs : m.1.cdpSession with
    | some c => simp [hA, hcs]
    | none =>
      by_cases hie : m.1.pages.isEmpty
      · simp [hA, hcs, hie]
      · simp [hA, hcs, hie]
  · simp [hA]

theorem not_mem_rmSyncFs (fs : List String) (a : String) : a ∉ rmSyncFs fs a := by
  simp [rmSyncFs]

/-- C4: with an active recording, `stopRecording` resolves (it never raises by
construction of its catch-all) and — for every outcome of the fallible engine
steps — removes the recording page and context from the tracked lists, issues
the close call on the recording page, removes the temp directory from the
filesystem, resets every recording field to its empty value, and reports an
`error` field exactly when one of the steps failed. -/
theorem stopRecording_always_cleans_up (m : MW) (o : StopOracle)
    (rc : Nat) (rp : PageH)
    (hc : m.1.recordingContext = some rc) (hp : m.1.recordingPage = some rp) :
    (stopRecording m o).1.1.pages = m.1.pages.erase rp ∧
    (stopRecording m o).1.1.contexts = m.1.contexts.erase rc ∧
    (stopRecording m o).1.1.recordingContext = none ∧
    (stopRecording m o).1.1.recordingPage = none ∧
    (stopRecording m o).1.1.recordingOutputPath = "" ∧
    (stopRecording m o).1.1.recordingTempDir = "" ∧
    rp.id ∈ (stopRecording m o).1.2.pageCloseCalls ∧
    (m.1.recordingTempDir ≠ "" →
      m.1.recordingTempDir ∉ (stopRecording m o).1.2.fs) ∧
    (stopRecording m o).2.path = m.1.recordingOutputPath ∧
    ((stopRecording m o).2.error = none ↔
      (o.closePageOk = true ∧ (o.videoPresent = true → o.saveOk = true) ∧
       o.closeContextOk = true)) := by
  unfold stopRecording
  rw [hc, hp]
  by_cases htd : m.1.recordingTempDir = "" <;>
    by_cases h1 : o.closePageOk = true <;>
    by_cases h2 : o.videoPresent = true <;>
    by_cases h3 : o.saveOk = true <;>
    by_cases h4 : o.closeContextOk = true <;>
    simp [htd, h1, h2, h3, h4, invalidateCDPSession_eq, stopRecordingCatch,
          rmSyncFs]

def recordingActiveState : ManagerState :=
  { browser := some 7, contexts := [3, 5], pages := [⟨1, 3⟩, ⟨2, 5⟩],
    activePageIndex := 1, recordingContext := some 5,
    recordingPage := some ⟨2, 5⟩, recordingOutputPath := "video.webm",
    recordingTempDir := "tmpdir-1", nextId := 8 }

def recWorld : World := { fs := ["tmpdir-1"] }

def saveFailOracle : StopOracle := { saveOk := false }

theorem stopRecording_always_cleans_up_witness :
    (stopRecording (recordingActiveState, recWorld) saveFailOracle).1.1.pages
        = [⟨1, 3⟩] ∧
    (stopRecording (recordingActiveState, recWorld)
        saveFailOracle).1.1.recordingTempDir = "" ∧
    "tmpdir-1" ∉ (stopRecording (recordingActiveState, recWorld)
        saveFailOracle).1.2.fs ∧
    ¬ (stopRecording (recordingActiveState, recWorld) saveFailOracle).2.error
        = none := by
  have h := stopRecording_always_cleans_up
    (recordingActiveState, recWorld) saveFailOracle 5 ⟨2, 5⟩ rfl rfl
  refine ⟨?_, h.2.2.2.2.2.1, h.2.2.2.2.2.2.2.1 (by decide), ?_⟩
  · rw [h.1]
    decide
  · intro hnone
    have := (h.2.2.2.2.2.2.2.2.2).mp hnone
    simp [saveFailOracle] at this

/-- First step of `close()`: stop the recording when one is active (its own
errors are returned, not thrown, and are discarded here). -/
def closeStopRecording (m : MW) (o : StopOracle) : MW :=
  if m.1.recordingContext.isSome then (stopRecording m o).1 else m

/-- Second step of `close()`: stop the screencast when active. -/
def closeStopScreencast (m : MW) : MW :=
  if m.1.screencastActive then stopScreencast m else m

/-- Third step of `close()`: detach (errors swallowed) and clear the CDP
session. -/
def closeClearSession (m : MW) : MW :=
  ({ m.1 with cdpSession := none }, m.2)

/-- The teardown dispatch of `close()`: provider-specific remote teardown
(HTTP delete, errors logged not thrown), CDP disconnect (close the handle
only), or full local close of every page, context and the browser. -/
def closeTeardownBranch (m : MW) : MW :=
  if m.1.browserbaseSessionId.isSome && m.1.browserbaseApiKey.isSome then
    ({ m.1 with browser := none }, m.2)
  else if m.1.browserUseSessionId.isSome && m.1.browserUseApiKey.isSome then
    ({ m.1 with browser := none }, m.2)
  else if m.1.kernelSessionId.isSome && m.1.kernelApiKey.isSome then
    ({ m.1 with browser := none }, m.2)
  else if m.1.cdpEndpoint.isSome then
    (if m.1.browser.isSome then
      ({ m.1 with browser := none },
       { m.2 with browserCloseCalls := m.2.browserCloseCalls ++ m.1.browser.toList })
     else m)
  else
    ({ m.1 with browser := none },
     { m.2 with
        pageCloseCalls := m.2.pageCloseCalls ++ m.1.pages.map (fun p => p.id)
        contextCloseCalls := m.2.contextCloseCalls ++ m.1.contexts
        browserCloseCalls := m.2.browserCloseCalls ++ m.1.browser.toList })

/-- The final field resets of `close()`. -/
def closeResetFields (m : MW) : MW :=
  ({ m.1 with
      pages := []
      contexts := []
      cdpEndpoint := none
      browserbaseSessionId := none
      browserbaseApiKey := none
      browserUseSessionId := none
      browserUseApiKey := none
      kernelSessionId := none
      kernelApiKey := none
      isPersistentContext := false
      activePageIndex := 0
      refMap := []
      lastSnapshot := ""
      frameCallback := false }, m.2)

/-- `close()`: stop recording and screencast, clear the CDP session, tear the
connection down through the branch matching the connection mode, then reset
the fields.  Every fallible step is caught, so `close` always resolves. -/
def close (m : MW) (o : StopOracle) : MW :=
  closeResetFields (closeTeardownBranch (closeClearSession
    (closeStopScreencast (closeStopRecording m o))))

theorem stopRecording_recording_implication (m : MW) (o : StopOracle) :
    (stopRecording m o).1.1.recordingContext.isSome = true →
    (stopRecording m o).1.1.recordingPage = none := by
  unfold stopRecording
  cases hc : m.1.recordingContext with
  | none =>
    cases hp : m.1.recordingPage <;> simp [hc]
  | some rc =>
    cases hp : m.1.recordingPage with
    | none => simp [hp]
    | some rp =>
      by_cases h1 : o.closePageOk = true <;>
        by_cases h2 : o.videoPresent = true <;>
        by_cases h3 : o.saveOk = true <;>
        by_cases h4 : o.closeContextOk = true <;>
        simp [h1, h2, h3, h4, invalidateCDPSession_eq, stopRecordingCatch]

theorem closeStopRecording_recording (m : MW) (o : StopOracle) :
    (closeStopRecording m o).1.recordingContext.isSome = true →
    (closeStopRecording m o).1.recordingPage = none := by
  unfold closeStopRecording
  by_cases hic : m.1.recordingContext.isSome = true
  · simp only [hic, if_true]
    exact stopRecording_recording_implication m o
  · simp only [hic]
    simp only [if_false, Bool.false_eq_true]
    intro hsome
    exact absurd hsome hic

theorem stopScreencast_state (m : MW) :
    (stopScreencast m).1.screencastActive = false ∧
    (stopScreencast m).1.recordingContext = m.1.recordingContext ∧
    (stopScreencast m).1.recordingPage = m.1.recordingPage := by
  unfold stopScreencast
  by_cases hA : m.1.screencastActive
  · cases hs : getCDPSessionSt m.1 with
    | error e => simp [hA]
    | ok p =>
      rcases p with ⟨s1, c⟩
      have h1 := getCDPSessionSt_ok hs
      subst h1
      simp [hA]
  · simp [hA]

theorem closeStopScreencast_state (m : MW) :
    (closeStopScreencast m).1.screencastActive = false ∧
    (closeStopScreencast m).1.recordingContext = m.1.recordingContext ∧
    (closeStopScreencast m).1.recordingPage = m.1.recordingPage := by
  unfold closeStopScreencast
  by_cases hA : m.1.screencastActive
  · simp only [hA, if_true]
    exact stopScreencast_state m
  · have hA2 : m.1.screencastActive = false := by simpa using hA
    simp [hA2]

theorem closeTeardownBranch_state (m : MW) :
    (closeTeardownBranch m).1.browser = none ∧
    (closeTeardownBranch m).1.cdpSession = m.1.cdpSession ∧
    (closeTeardownBranch m).1.screencastActive = m.1.screencastActive ∧
    (closeTeardownBranch m).1.recordingContext = m.1.recordingContext ∧
    (closeTeardownBranch m).1.recordingPage = m.1.recordingPage := by
  unfold closeTeardownBranch
  repeat' split
  all_goals
    first
      | exact ⟨rfl, rfl, rfl, rfl, rfl⟩
      | (rename_i hb
         exact ⟨Option.not_isSome_iff_eq_none.mp (by simpa using hb),
                rfl, rfl, rfl, rfl⟩)

theorem close_shape (m : MW) (o : StopOracle) :
    (close m o).1.pages = [] ∧
    (close m o).1.contexts = [] ∧
    (close m o).1.browser = none ∧
    (close m o).1.cdpEndpoint = none ∧
    (close m o).1.browserbaseSessionId = none ∧
    (close m o).1.browserbaseApiKey = none ∧
    (close m o).1.browserUseSessionId = none ∧
    (close m o).1.browserUseApiKey = none ∧
    (close m o).1.kernelSessionId = none ∧
    (close m o).1.kernelApiKey = none ∧
    (close m o).1.isPersistentContext = false ∧
    (close m o).1.activePageIndex = 0 ∧
    (close m o).1.refMap = [] ∧
    (close m o).1.lastSnapshot = "" ∧
    (close m o).1.frameCallback = false ∧
    (close m o).1.cdpSession = none ∧
    (close m o).1.screencastActive = false ∧
    ((close m o).1.recordingContext.isSome = true →
      (close m o).1.recordingPage = none) := by
  have hctb := closeTeardownBranch_state
    (closeClearSession (closeStopScreencast (closeStopRecording m o)))
  have hcss := closeStopScreencast_state (closeStopRecording m o)
  have hcsr := closeStopRecording_recording m o
  refine ⟨rfl, rfl, ?_, rfl, rfl, rfl, rfl, rfl, rfl, rfl, rfl, rfl, rfl, rfl,
          rfl, ?_, ?_, ?_⟩
  · exact hctb.1
  · exact hctb.2.1
  · exact (hctb.2.2.1).trans hcss.1
  · intro hsome
    have h1 : (close m o).1.recordingContext
        = (closeStopRecording m o).1.recordingContext :=
      (hctb.2.2.2.1).trans hcss.2.1
    have h2 : (close m o).1.recordingPage
        = (closeStopRecording m o).1.recordingPage :=
      (hctb.2.2.2.2).trans hcss.2.2
    rw [h1] at hsome
    rw [h2]
    exact hcsr hsome

theorem close_fixed (m : MW) (o : StopOracle)
    (hpg : m.1.pages = []) (hct : m.1.contexts = [])
    (hb : m.1.browser = none) (hce : m.1.cdpEndpoint = none)
    (h1 : m.1.browserbaseSessionId = none) (h2 : m.1.browserbaseApiKey = none)
    (h3 : m.1.browserUseSessionId = none) (h4 : m.1.browserUseApiKey = none)
    (h5 : m.1.kernelSessionId = none) (h6 : m.1.kernelApiKey = none)
    (hip : m.1.isPersistentContext = false) (hai : m.1.activePageIndex = 0)
    (hrm : m.1.refMap = []) (hls : m.1.lastSnapshot = "")
    (hfc : m.1.frameCallback = false) (hcs : m.1.cdpSession = none)
    (hsa : m.1.screencastActive = false)
    (hrec : m.1.recordingContext.isSome = true → m.1.recordingPage = none) :
    close m o = m := by
  obtain ⟨s, w⟩ := m
  cases s with
  | mk browser cdpEndpoint isP bbS bbK buS buK kS kK contexts pages active
      refs lastSnap shr pr cdp sa fc sfh recCtx recPage recOut recTmp nid =>
  cases w with
  | mk wfs wpc wcc wbc wcmd =>
  dsimp only at hpg hct hb hce h1 h2 h3 h4 h5 h6 hip hai hrm hls hfc hcs hsa hrec
  subst hpg hct hb hce h1 h2 h3 h4 h5 h6 hip hai hrm hls hfc hcs hsa
  cases hrc : recCtx with
  | none =>
    simp [close, closeStopRecording, closeStopScreencast, closeClearSession,
          closeTeardownBranch, closeResetFields, hrc]
  | some rc =>
    have hrp : recPage = none := by
      apply hrec
      rw [hrc]
      rfl
    subst hrp
    simp [close, closeStopRecording, stopRecording, closeStopScreencast,
          closeClearSession, closeTeardownBranch, closeResetFields, hrc]

/-- C5: `close()` never throws (it is a total function of the state and the
failure oracle), leaves the pages and contexts collections empty and every
connection-mode field (browser handle, CDP endpoint, remote-session ids and
credentials, persistent-context flag) reset, and calling it again returns the
very same fully reset state and world: the second call is a no-op. -/
theorem close_twice_idempotent (m : MW) (o1 o2 : StopOracle) :
    (close m o1).1.pages = [] ∧
    (close m o1).1.contexts = [] ∧
    (close m o1).1.browser = none ∧
    (close m o1).1.cdpEndpoint = none ∧
    (close m o1).1.browserbaseSessionId = none ∧
    (close m o1).1.browserbaseApiKey = none ∧
    (close m o1).1.browserUseSessionId = none ∧
    (close m o1).1.browserUseApiKey = none ∧
    (close m o1).1.kernelSessionId = none ∧
    (close m o1).1.kernelApiKey = none ∧
    (close m o1).1.isPersistentContext = false ∧
    close (close m o1) o2 = close m o1 := by
  have hs := close_shape m o1
  refine ⟨hs.1, hs.2.1, hs.2.2.1, hs.2.2.2.1, hs.2.2.2.2.1, hs.2.2.2.2.2.1,
          hs.2.2.2.2.2.2.1, hs.2.2.2.2.2.2.2.1, hs.2.2.2.2.2.2.2.2.1,
          hs.2.2.2.2.2.2.2.2.2.1, hs.2.2.2.2.2.2.2.2.2.2.1, ?_⟩
  exact close_fixed (close m o1) o2 hs.1 hs.2.1 hs.2.2.1 hs.2.2.2.1
    hs.2.2.2.2.1 hs.2.2.2.2.2.1 hs.2.2.2.2.2.2.1 hs.2.2.2.2.2.2.2.1
    hs.2.2.2.2.2.2.2.2.1 hs.2.2.2.2.2.2.2.2.2.1 hs.2.2.2.2.2.2.2.2.2.2.1
    hs.2.2.2.2.2.2.2.2.2.2.2.1 hs.2.2.2.2.2.2.2.2.2.2.2.2.1
    hs.2.2.2.2.2.2.2.2.2.2.2.2.2.1 hs.2.2.2.2.2.2.2.2.2.2.2.2.2.2.1
    hs.2.2.2.2.2.2.2.2.2.2.2.2.2.2.2.1 hs.2.2.2.2.2.2.2.2.2.2.2.2.2.2.2.2.1
    hs.2.2.2.2.2.2.2.2.2.2.2.2.2.2.2.2.2

/-- The fields of the `LaunchCommand` options type that `launch` reads. -/
structure LaunchCommand where
  cdpUrl : Option String := none
  cdpPort : Option Nat := none
  extensions : List String := []
  profile : Option String := none
  storageState : Option String := none
  autoConnect : Bool := false
  provider : Option String := none
  browser : Option String := none
  allowFileAccess : Bool := false
  deriving DecidableEq, Repr, Inhabited

/-- Outcomes of the external calls `launch` makes: the
`AGENT_BROWSER_PROVIDER` environment variable, engine liveness probes, CDP
connection attempts, discovered remote contexts/pages, and provider
credentials/session creation. -/
structure LaunchEnv where
  envProvider : Option String := none
  browserConnected : Bool := true
  contextsHavePages : Bool := true
  cdpConnectOk : Bool := true
  cdpContexts : List Nat := [100]
  cdpPages : List PageH := [⟨100, 100⟩]
  autoEndpoint : Option String := none
  browserbaseCreds : Option (String × String) := none
  browserUseCreds : Option (String × String) := none
  kernelCreds : Option (String × String) := none
  closeOracle : StopOracle := {}
  deriving DecidableEq, Repr, Inhabited

/-- `isCdpConnectionAlive()`: a browser handle whose engine-side contexts
still expose at least one page (the probe outcome is external). -/
def isCdpConnectionAlive (s : ManagerState) (env : LaunchEnv) : Bool :=
  s.browser.isSome && env.contextsHavePages

/-- `needsCdpReconnect(cdpEndpoint)`. -/
def needsCdpReconnect (s : ManagerState) (env : LaunchEnv) (e : String) : Bool :=
  !(s.browser.isSome && env.browserConnected) ||
  !(s.cdpEndpoint == some e) ||
  !(isCdpConnectionAlive s env)

/-- The URL normalization of `connectViaCDP`: full URLs pass through, anything
else is treated as a localhost port. -/
def cdpUrlOf (e : String) : String :=
  if strStartsWith e "ws://" || strStartsWith e "wss://"
      || strStartsWith e "http://" || strStartsWith e "https://" then e
  else "http://localhost:" ++ e

/-- `connectViaCDP(cdpEndpoint)`: connect, validate that the remote browser
has a context and a page with a URL, then commit all discovered contexts and
pages with active index 0. -/
def connectViaCDP (m : MW) (env : LaunchEnv) (e : String) :
    MW × Except String Unit :=
  if !env.cdpConnectOk then
    (m, .error ("Failed to connect via CDP to " ++ cdpUrlOf e ++ "."))
  else if env.cdpContexts.isEmpty then
    (m, .error "No browser context found. Make sure the app has an open window.")
  else if env.cdpPages.isEmpty then
    (m, .error "No page found. Make sure the app has loaded content.")
  else
    (({ m.1 with
        browser := some m.1.nextId
        cdpEndpoint := some e
        contexts := m.1.contexts ++ env.cdpContexts
        pages := m.1.pages ++ env.cdpPages
        activePageIndex := 0
        nextId := m.1.nextId + 1 }, m.2), .ok ())

/-- `autoConnectViaCDP()`: the on-disk/port discovery is external; with a
discovered endpoint it behaves as `connectViaCDP`, otherwise it fails with
the remediation hint. -/
def autoConnectViaCDP (m : MW) (env : LaunchEnv) : MW × Except String Unit :=
  match env.autoEndpoint with
  | some e => connectViaCDP m env e
  | none => (m, .error "No running Chrome instance with remote debugging found.")

/-- `connectToBrowserbase()`: credentials from the environment (fail fast when
absent), remote session creation and attach collapsed into the env oracle. -/
def connectToBrowserbase (m : MW) (env : LaunchEnv) : MW × Except String Unit :=
  match env.browserbaseCreds with
  | none =>
    (m, .error "BROWSERBASE_API_KEY and BROWSERBASE_PROJECT_ID are required when using browserbase as a provider")
  | some (sid, key) =>
    (({ m.1 with
        browserbaseSessionId := some sid
        browserbaseApiKey := some key
        browser := some m.1.nextId
        contexts := m.1.contexts ++ [m.1.nextId + 1]
        pages := m.1.pages ++ [⟨m.1.nextId + 2, m.1.nextId + 1⟩]
        activePageIndex := 0
        nextId := m.1.nextId + 3 }, m.2), .ok ())

/-- `connectToBrowserUse()`. -/
def connectToBrowserUse (m : MW) (env : LaunchEnv) : MW × Except String Unit :=
  match env.browserUseCreds with
  | none =>
    (m, .error "BROWSER_USE_API_KEY is required when using browseruse as a provider")
  | some (sid, key) =>
    (({ m.1 with
        browserUseSessionId := some sid
        browserUseApiKey := some key
        browser := some m.1.nextId
        contexts := m.1.contexts ++ [m.1.nextId + 1]
        pages := m.1.pages ++ [⟨m.1.nextId + 2, m.1.nextId + 1⟩]
        activePageIndex := 0
        nextId := m.1.nextId + 3 }, m.2), .ok ())

/-- `connectToKernel()`. -/
def connectToKernel (m : MW) (env : LaunchEnv) : MW × Except String Unit :=
  match env.kernelCreds with
  | none =>
    (m, .error "KERNEL_API_KEY is required when using kernel as a provider")
  | some (sid, key) =>
    (({ m.1 with
        kernelSessionId := some sid
        kernelApiKey := some key
        browser := some m.1.nextId
        contexts := m.1.contexts ++ [m.1.nextId + 1]
        pages := m.1.pages ++ [⟨m.1.nextId + 2, m.1.nextId + 1⟩]
        activePageIndex := 0
        nextId := m.1.nextId + 3 }, m.2), .ok ())

/-- The local-launch tail of `launch`: persistent context (extensions or
profile) or an ephemeral browser + fresh context, then the shared
context/page commit. -/
def launchLocal (m : MW) (o : LaunchCommand) : MW :=
  let c := m.1.nextId
  let p : PageH := ⟨m.1.nextId + 1, c⟩
  let base :=
    if !o.extensions.isEmpty then
      { m.1 with isPersistentContext := true }
    else if o.profile.isSome then
      { m.1 with isPersistentContext := true }
    else
      { m.1 with browser := some (m.1.nextId + 2), cdpEndpoint := none }
  ({ base with
      contexts := base.contexts ++ [c]
      pages := base.pages ++ [p]
      activePageIndex := (base.pages ++ [p]).length - 1
      nextId := m.1.nextId + 3 }, m.2)

/-- The connection dispatch of `launch`, applied after validation and
re-launch handling: CDP attach, auto-connect, a remote provider, or — after
the engine-compatibility checks — a local launch. -/
def launchDispatch (m1 : MW) (o : LaunchCommand) (env : LaunchEnv) :
    MW × Except String Unit :=
  let cdpEndpoint := o.cdpUrl <|> (o.cdpPort.map toString)
  if cdpEndpoint.isSome then connectViaCDP m1 env (cdpEndpoint.getD "")
  else if o.autoConnect then autoConnectViaCDP m1 env
  else
    let provider := o.provider <|> env.envProvider
    if provider == some "browserbase" then connectToBrowserbase m1 env
    else if provider == some "browseruse" then connectToBrowserUse m1 env
    else if provider == some "kernel" then connectToKernel m1 env
    else
      let browserType := o.browser.getD "chromium"
      if (!o.extensions.isEmpty) && !(browserType == "chromium") then
        (m1, .error "Extensions are only supported in Chromium")
      else if o.allowFileAccess && !(browserType == "chromium") then
        (m1, .error "allowFileAccess is only supported in Chromium")
      else
        (launchLocal m1 o, .ok ())

/-- `launch(options)`: the four option-conflict validations, the re-launch
handling (close the prior session when the mode changed or the connection
died, otherwise no-op), then dispatch to CDP attach, auto-connect, a remote
provider, or — after the engine-compatibility checks — a local launch. -/
def launch (m : MW) (o : LaunchCommand) (env : LaunchEnv) :
    MW × Except String Unit :=
  let cdpEndpoint := o.cdpUrl <|> (o.cdpPort.map toString)
  let hasExtensions := !o.extensions.isEmpty
  let hasProfile := o.profile.isSome
  let hasStorageState := o.storageState.isSome
  if hasExtensions && cdpEndpoint.isSome then
    (m, .error "Extensions cannot be used with CDP connection")
  else if hasProfile && cdpEndpoint.isSome then
    (m, .error "Profile cannot be used with CDP connection")
  else if hasStorageState && hasProfile then
    (m, .error "Storage state cannot be used with profile (profile is already persistent storage)")
  else if hasStorageState && hasExtensions then
    (m, .error "Storage state cannot be used with extensions (extensions require persistent context)")
  else
    let needsRelaunch :=
      (cdpEndpoint.isNone && !o.autoConnect && m.1.cdpEndpoint.isSome) ||
      (cdpEndpoint.isSome && needsCdpReconnect m.1 env (cdpEndpoint.getD "")) ||
      (o.autoConnect && !(isCdpConnectionAlive m.1 env))
    if isLaunched m.1 && !needsRelaunch then
      (m, .ok ())
    else
      launchDispatch
        (if isLaunched m.1 && needsRelaunch then close m env.closeOracle else m)
        o env

def cdpLaunchedState : ManagerState :=
  { browser := some 5, cdpEndpoint := some "9222", contexts := [1],
    pages := [⟨1, 1⟩], activePageIndex := 0, nextId := 10 }

def extFirefoxOpts : LaunchCommand :=
  { extensions := ["ext1"], browser := some "firefox" }

/-- C3 counterexample: from a session attached via CDP, a launch call with
extensions and a non-default engine does throw the engine-compatibility error,
but only after re-launch handling has already closed the prior session: the
manager state is modified (its page list is emptied) by the failing call. -/
theorem launch_engine_check_after_close_counterexample :
    (launch (cdpLaunchedState, {}) extFirefoxOpts {}).2
        = .error "Extensions are only supported in Chromium" ∧
    (launch (cdpLaunchedState, {}) extFirefoxOpts {}).1.1 ≠ cdpLaunchedState ∧
    (launch (cdpLaunchedState, {}) extFirefoxOpts {}).1.1.pages = [] ∧
    cdpLaunchedState.pages ≠ [] := by
  refine ⟨rfl, by decide, by decide, by decide⟩

/-- C3 amended: a launch configuration violating one of the four
option-conflict rules (endpoint with extensions, endpoint with profile,
profile with storage state, extensions with storage state) always throws
before any side effect — the manager state and world are returned unchanged
and no prior session is closed.  The engine-compatibility rules (extensions
or the file-access flag with a non-default engine) are enforced only on the
local-launch path: from a non-launched manager with no endpoint, no
auto-connect and no provider they always throw, while from a launched manager
the call may first close the prior session (see the counterexample). -/
theorem launch_validation_amended (m : MW) (o : LaunchCommand)
    (env : LaunchEnv) :
    (((!o.extensions.isEmpty
        && (o.cdpUrl <|> (o.cdpPort.map toString)).isSome) = true ∨
      (o.profile.isSome
        && (o.cdpUrl <|> (o.cdpPort.map toString)).isSome) = true ∨
      (o.storageState.isSome && o.profile.isSome) = true ∨
      (o.storageState.isSome && !o.extensions.isEmpty) = true) →
      ((launch m o env).1 = m ∧ ∃ msg, (launch m o env).2 = .error msg)) ∧
    ((isLaunched m.1 = false ∧ o.cdpUrl = none ∧ o.cdpPort = none ∧
      o.autoConnect = false ∧ o.provider = none ∧ env.envProvider = none ∧
      ¬ o.browser.getD "chromium" = "chromium" ∧
      (¬ o.extensions.isEmpty = true ∨ o.allowFileAccess = true)) →
      ∃ msg, (launch m o env).2 = .error msg) := by
  constructor
  · intro h
    unfold launch
    by_cases g1 : (!o.extensions.isEmpty
        && (o.cdpUrl <|> (o.cdpPort.map toString)).isSome) = true
    · simp [g1]
    · by_cases g2 : (o.profile.isSome
          && (o.cdpUrl <|> (o.cdpPort.map toString)).isSome) = true
      · simp [g1, g2]
      · by_cases g3 : (o.storageState.isSome && o.profile.isSome) = true
        · simp [g1, g2, g3]
        · by_cases g4 : (o.storageState.isSome && !o.extensions.isEmpty) = true
          · simp [g1, g2, g3, g4]
          · exact absurd h (by simp [g1, g2, g3, g4])
  · rintro ⟨hL, hcu, hcp, hac, hpv, hev, hbt, hea⟩
    have hbt2 : (o.browser.getD "chromium" == "chromium") = false := by
      simp [hbt]
    have hLb : m.1.browser = none ∧ m.1.isPersistentContext = false := by
      simpa [isLaunched] using hL
    unfold launch
    by_cases g3 : (o.storageState.isSome && o.profile.isSome) = true
    · simp [hcu, hcp, g3]
    · by_cases g4 : (o.storageState.isSome && !o.extensions.isEmpty) = true
      · simp [hcu, hcp, g3, g4]
      · rcases hea with hea | hea
        · have hext : (!o.extensions.isEmpty) = true := by
            cases hx : o.extensions.isEmpty
            · rfl
            · exact absurd hx hea
          have hst : o.storageState.isSome = false := by
            cases hy : o.storageState.isSome
            · rfl
            · exact absurd (by simp [hy, hext]) g4
          simp [hcu, hcp, hac, hpv, hev, hst, hext, hbt2, isLaunched,
                launchDispatch, hLb.1, hLb.2]
        · by_cases hext : (!o.extensions.isEmpty) = true
          · have hst : o.storageState.isSome = false := by
              cases hy : o.storageState.isSome
              · rfl
              · exact absurd (by simp [hy, hext]) g4
            simp [hcu, hcp, hac, hpv, hev, hst, hext, hbt2, isLaunched,
                  launchDispatch, hLb.1, hLb.2]
          · have hee : (!o.extensions.isEmpty) = false := by
              cases hx : (!o.extensions.isEmpty)
              · rfl
              · exact absurd hx hext
            simp [hcu, hcp, hac, hpv, hev, g3, g4, hea, hee, hbt2,
                  isLaunched, launchDispatch, hLb.1, hLb.2]

theorem launch_validation_amended_witness :
    ((launch (sampleState, {})
        { profile := some "p", storageState := some "s" } {}).1
        = (sampleState, {}) ∧
     ∃ msg, (launch (sampleState, {})
        { profile := some "p", storageState := some "s" } {}).2
        = .error msg) ∧
    (∃ msg, (launch (({} : ManagerState), {})
        { browser := some "firefox", allowFileAccess := true } {}).2
        = .error msg) := by
  have h1 := launch_validation_amended (sampleState, {})
    { profile := some "p", storageState := some "s" } {}
  have h2 := launch_validation_amended (({} : ManagerState), {})
    { browser := some "firefox", allowFileAccess := true } {}
  exact ⟨h1.1 (Or.inr (Or.inr (Or.inl (by decide)))),
         h2.2 (by refine ⟨by decide, rfl, rfl, rfl, rfl, rfl, by decide,
                          Or.inr rfl⟩)⟩

/-! Preservation of `WF` by every modelled operation: this justifies reading
"every state" in the registry claims as the reachable states of the
manager. -/

theorem WF_initial : WF {} := by
  simp [WF]

theorem WF_mono (s s1 : ManagerState)
    (hp : s1.isPersistentContext = s.isPersistentContext)
    (hb : s1.browser = s.browser)
    (hrc : s1.recordingContext = s.recordingContext)
    (hrp : s1.recordingPage = s.recordingPage)
    (hc : s.contexts ≠ [] → s1.contexts ≠ [])
    (h : WF s) : WF s1 := by
  obtain ⟨h1, h2, h3⟩ := h
  refine ⟨?_, ?_, ?_⟩
  · intro hp2
    rw [hp] at hp2
    have h4 := h1 hp2
    rw [hb]
    exact ⟨h4.1, hc h4.2⟩
  · intro hr2
    rw [hrc] at hr2
    rw [hb]
    exact h2 hr2
  · rw [hrc, hrp]
    exact h3

theorem WF_pageClosedHandler (s : ManagerState) (p : PageH) (h : WF s) :
    WF (pageClosedHandler s p) := by
  unfold pageClosedHandler
  split
  · exact WF_mono s _ rfl rfl rfl rfl id h
  · exact h

theorem WF_invalidateCDPSession (m : MW) (h : WF m.1) :
    WF (invalidateCDPSession m).1 := by
  rw [invalidateCDPSession_eq]
  exact WF_mono m.1 _ rfl rfl rfl rfl id h

theorem WF_closeTab (m : MW) (idx : Option Nat) (h : WF m.1) :
    WF (closeTab m idx).1.1 := by
  unfold closeTab
  by_cases h1 : m.1.pages.length ≤ idx.getD m.1.activePageIndex
  · simp only [h1, if_true]
    exact h
  · by_cases h2 : (m.1.pages.length == 1) = true
    · simp only [h1, if_false, h2, if_true]
      exact h
    · simp only [h1, h2, if_false, Bool.false_eq_true]
      by_cases h3 : (idx.getD m.1.activePageIndex == m.1.activePageIndex) = true
      · simp only [h3, if_true]
        rw [invalidateCDPSession_eq]
        exact WF_mono m.1 _ rfl rfl rfl rfl id h
      · simp only [h3]
        simp only [if_false, Bool.false_eq_true]
        exact WF_mono m.1 _ rfl rfl rfl rfl id h

theorem WF_ensurePage (s : ManagerState) (h : WF s) : WF (ensurePage s) := by
  unfold ensurePage
  by_cases h1 : 0 < s.pages.length
  · simp only [h1, if_true]
    exact h
  · simp only [h1, if_false]
    by_cases h2 : (s.browser.isNone ∧ ¬ s.isPersistentContext)
    · simp only [h2, if_true]
      exact h
    · simp only [h2, if_false]
      cases hc : s.contexts.getLast? with
      | some c => exact WF_mono s _ rfl rfl rfl rfl id h
      | none =>
        cases hb : s.browser with
        | some b => exact WF_mono s _ rfl hb.symm rfl rfl (fun _ => by simp) h
        | none => exact h

theorem WF_newTab (m : MW) (h : WF m.1) : WF (newTab m).1.1 := by
  unfold newTab
  split
  · exact h
  · rw [invalidateCDPSession_eq]
    exact WF_mono m.1 _ rfl rfl rfl rfl id h

theorem WF_newWindow (m : MW) (h : WF m.1) : WF (newWindow m).1.1 := by
  unfold newWindow
  split
  · exact h
  · exact WF_mono m.1 _ rfl rfl rfl rfl (fun _ => by simp) h

theorem WF_startScreencast (m : MW) (h : WF m.1) :
    WF (startScreencast m).1.1 := by
  unfold startScreencast
  split
  · exact h
  · rcases hs : getCDPSessionSt m.1 with e | ⟨s1, c⟩
    · simp only [hs]
      exact h
    · simp only [hs]
      have he := getCDPSessionSt_ok hs
      subst he
      exact WF_mono m.1 _ rfl rfl rfl rfl id h

theorem WF_stopScreencast (m : MW) (h : WF m.1) : WF (stopScreencast m).1 := by
  unfold stopScreencast
  split
  · exact h
  · rcases hs : getCDPSessionSt m.1 with e | ⟨s1, c⟩
    · simp only [hs]
      exact WF_mono m.1 _ rfl rfl rfl rfl id h
    · simp only [hs]
      have he := getCDPSessionSt_ok hs
      subst he
      exact WF_mono m.1 _ rfl rfl rfl rfl id h

theorem WF_setScopedHeaders (parseUrlHost : String → Option String)
    (s : ManagerState) (origin : String) (headers : HeaderMap) (h : WF s) :
    WF (setScopedHeaders parseUrlHost s origin headers).1 := by
  unfold setScopedHeaders
  rcases hp : getPageE s with e | pg
  · simp only [hp]
    exact h
  · simp only [hp]
    cases hg : mapGet s.scopedHeaderRoutes (urlPatternFor parseUrlHost origin)
    · simp only [hg]
      exact WF_mono s _ rfl rfl rfl rfl id h
    · simp only [hg]
      exact WF_mono s _ rfl rfl rfl rfl id h

theorem WF_startRecording (m : MW) (outputPath : String) (url : Option String)
    (tmp : String) (h : WF m.1) :
    WF (startRecording m outputPath url tmp).1.1 := by
  unfold startRecording
  by_cases h1 : m.1.recordingContext.isSome = true
  · simp only [h1, if_true]
    exact h
  · by_cases h2 : m.1.browser.isNone = true
    · simp only [h1, h2]
      simp only [if_false, if_true, Bool.false_eq_true]
      exact h
    · by_cases h3 : m.2.fs.contains outputPath = true
      · simp only [h1, h2, h3]
        simp only [if_false, if_true, Bool.false_eq_true]
        exact h
      · by_cases h4 : (!(strEndsWith outputPath ".webm")) = true
        · simp only [h1, h2, h3, h4]
          simp only [if_false, if_true, Bool.false_eq_true]
          exact h
        · simp only [h1, h2, h3, h4]
          simp only [if_false, Bool.false_eq_true]
          rw [invalidateCDPSession_eq]
          have hns : m.1.isPersistentContext = false := by
            cases hp2 : m.1.isPersistentContext
            · rfl
            · have h5 := (h.1 hp2).1
              rw [h5] at h2
              exact absurd rfl h2
          refine ⟨?_, ?_, ?_⟩
          · intro hp2
            rw [hns] at hp2
            cases hp2
          · intro _
            cases hb : m.1.browser with
            | none =>
              rw [hb] at h2
              exact absurd rfl h2
            | some b => rfl
          · rfl

theorem stopRecording_resets (m : MW) (o : StopOracle) (rc : Nat) (rp : PageH)
    (hc : m.1.recordingContext = some rc) (hp : m.1.recordingPage = some rp) :
    (stopRecording m o).1.1.recordingContext = none ∧
    (stopRecording m o).1.1.recordingPage = none ∧
    (stopRecording m o).1.1.browser = m.1.browser ∧
    (stopRecording m o).1.1.isPersistentContext = m.1.isPersistentContext := by
  unfold stopRecording
  rw [hc, hp]
  by_cases h1 : o.closePageOk = true <;>
    by_cases h2 : o.videoPresent = true <;>
    by_cases h3 : o.saveOk = true <;>
    by_cases h4 : o.closeContextOk = true <;>
    simp [h1, h2, h3, h4, invalidateCDPSession_eq, stopRecordingCatch]

theorem WF_stopRecording (m : MW) (o : StopOracle) (h : WF m.1) :
    WF (stopRecording m o).1.1 := by
  cases hc : m.1.recordingContext with
  | none =>
    cases hp : m.1.recordingPage with
    | none =>
      unfold stopRecording
      rw [hc, hp]
      exact h
    | some rp =>
      have h3 := h.2.2
      rw [hc, hp] at h3
      simp at h3
  | some rc =>
    cases hp : m.1.recordingPage with
    | none =>
      have h3 := h.2.2
      rw [hc, hp] at h3
      simp at h3
    | some rp =>
      obtain ⟨e1, e2, e3, e4⟩ := stopRecording_resets m o rc rp hc hp
      have hns : m.1.isPersistentContext = false := by
        cases hp2 : m.1.isPersistentContext
        · rfl
        · have h5 := (h.1 hp2).1
          have h6 := h.2.1 (by rw [hc]; rfl)
          rw [h5] at h6
          cases h6
      refine ⟨?_, ?_, ?_⟩
      · intro hp2
        rw [e4, hns] at hp2
        cases hp2
      · intro hr2
        rw [e1] at hr2
        cases hr2
      · rw [e1, e2]
        rfl

theorem WF_closeStopRecording (m : MW) (o : StopOracle) (h : WF m.1) :
    WF (closeStopRecording m o).1 := by
  unfold closeStopRecording
  split
  · exact WF_stopRecording m o h
  · exact h

theorem closeStopRecording_none (m : MW) (o : StopOracle) (h : WF m.1) :
    (closeStopRecording m o).1.recordingContext = none ∧
    (closeStopRecording m o).1.recordingPage = none := by
  cases hc : m.1.recordingContext with
  | none =>
    have hp : m.1.recordingPage = none := by
      have h3 := h.2.2
      rw [hc] at h3
      cases hp2 : m.1.recordingPage with
      | none => rfl
      | some rp =>
        rw [hp2] at h3
        simp at h3
    unfold closeStopRecording
    rw [hc]
    exact ⟨hc, hp⟩
  | some rc =>
    have hp : ∃ rp, m.1.recordingPage = some rp := by
      have h3 := h.2.2
      rw [hc] at h3
      cases hp2 : m.1.recordingPage with
      | none =>
        rw [hp2] at h3
        simp at h3
      | some rp => exact ⟨rp, rfl⟩
    obtain ⟨rp, hp2⟩ := hp
    unfold closeStopRecording
    rw [hc]
    simp only [Option.isSome_some, if_true]
    have hr := stopRecording_resets m o rc rp hc hp2
    exact ⟨hr.1, hr.2.1⟩

theorem WF_close (m : MW) (o : StopOracle) (h : WF m.1) : WF (close m o).1 := by
  have hnone := closeStopRecording_none m o h
  have hcss := closeStopScreencast_state (closeStopRecording m o)
  have hctb := closeTeardownBranch_state
    (closeClearSession (closeStopScreencast (closeStopRecording m o)))
  have he1 : (close m o).1.recordingContext = none :=
    hctb.2.2.2.1.trans (hcss.2.1.trans hnone.1)
  have he2 : (close m o).1.recordingPage = none :=
    hctb.2.2.2.2.trans (hcss.2.2.trans hnone.2)
  refine ⟨?_, ?_, ?_⟩
  · intro hp2
    exact absurd hp2 Bool.false_ne_true
  · intro hr2
    rw [he1] at hr2
    cases hr2
  · rw [he1, he2]
    rfl

theorem WF_connectViaCDP (m : MW) (env : LaunchEnv) (e : String)
    (h : WF m.1) (hp : m.1.isPersistentContext = false) :
    WF (connectViaCDP m env e).1.1 := by
  unfold connectViaCDP
  split
  · exact h
  · split
    · exact h
    · split
      · exact h
      · refine ⟨?_, ?_, ?_⟩
        · intro hp2
          have hp3 : m.1.isPersistentContext = true := hp2
          rw [hp] at hp3
          cases hp3
        · intro _
          rfl
        · exact h.2.2

theorem WF_autoConnectViaCDP (m : MW) (env : LaunchEnv)
    (h : WF m.1) (hp : m.1.isPersistentContext = false) :
    WF (autoConnectViaCDP m env).1.1 := by
  unfold autoConnectViaCDP
  cases env.autoEndpoint with
  | some e => exact WF_connectViaCDP m env e h hp
  | none => exact h

theorem WF_connectToBrowserbase (m : MW) (env : LaunchEnv)
    (h : WF m.1) (hp : m.1.isPersistentContext = false) :
    WF (connectToBrowserbase m env).1.1 := by
  unfold connectToBrowserbase
  cases env.browserbaseCreds with
  | none => exact h
  | some cr =>
    refine ⟨?_, ?_, ?_⟩
    · intro hp2
      have hp3 : m.1.isPersistentContext = true := hp2
      rw [hp] at hp3
      cases hp3
    · intro _
      rfl
    · exact h.2.2

theorem WF_connectToBrowserUse (m : MW) (env : LaunchEnv)
    (h : WF m.1) (hp : m.1.isPersistentContext = false) :
    WF (connectToBrowserUse m env).1.1 := by
  unfold connectToBrowserUse
  cases env.browserUseCreds with
  | none => exact h
  | some cr =>
    refine ⟨?_, ?_, ?_⟩
    · intro hp2
      have hp3 : m.1.isPersistentContext = true := hp2
      rw [hp] at hp3
      cases hp3
    · intro _
      rfl
    · exact h.2.2

theorem WF_connectToKernel (m : MW) (env : LaunchEnv)
    (h : WF m.1) (hp : m.1.isPersistentContext = false) :
    WF (connectToKernel m env).1.1 := by
  unfold connectToKernel
  cases env.kernelCreds with
  | none => exact h
  | some cr =>
    refine ⟨?_, ?_, ?_⟩
    · intro hp2
      have hp3 : m.1.isPersistentContext = true := hp2
      rw [hp] at hp3
      cases hp3
    · intro _
      rfl
    · exact h.2.2

theorem WF_launchLocal (m : MW) (o : LaunchCommand) (h : WF m.1)
    (hb : m.1.browser = none) (hp : m.1.isPersistentContext = false) :
    WF (launchLocal m o).1 := by
  unfold launchLocal
  by_cases e1 : (!o.extensions.isEmpty) = true
  · simp only [e1, if_true]
    refine ⟨?_, ?_, ?_⟩
    · intro _
      exact ⟨hb, by simp⟩
    · intro hr2
      have hr3 : m.1.recordingContext.isSome = true := hr2
      have h4 := h.2.1 hr3
      rw [hb] at h4
      cases h4
    · exact h.2.2
  · simp only [e1]
    simp only [if_false, Bool.false_eq_true]
    by_cases e2 : o.profile.isSome = true
    · simp only [e2, if_true]
      refine ⟨?_, ?_, ?_⟩
      · intro _
        exact ⟨hb, by simp⟩
      · intro hr2
        have hr3 : m.1.recordingContext.isSome = true := hr2
        have h4 := h.2.1 hr3
        rw [hb] at h4
        cases h4
      · exact h.2.2
    · simp only [e2]
      simp only [if_false, Bool.false_eq_true]
      refine ⟨?_, ?_, ?_⟩
      · intro hp2
        have hp3 : m.1.isPersistentContext = true := hp2
        rw [hp] at hp3
        cases hp3
      · intro _
        rfl
      · exact h.2.2

theorem WF_launchDispatch (m1 : MW) (o : LaunchCommand) (env : LaunchEnv)
    (h : WF m1.1) (hb : m1.1.browser = none)
    (hp : m1.1.isPersistentContext = false) :
    WF (launchDispatch m1 o env).1.1 := by
  unfold launchDispatch
  dsimp only
  split
  · exact WF_connectViaCDP m1 env _ h hp
  · split
    · exact WF_autoConnectViaCDP m1 env h hp
    · split
      · exact WF_connectToBrowserbase m1 env h hp
      · split
        · exact WF_connectToBrowserUse m1 env h hp
        · split
          · exact WF_connectToKernel m1 env h hp
          · split
            · exact h
            · split
              · exact h
              · exact WF_launchLocal m1 o h hb hp

theorem bool_not_both {X : Bool} (hA : ¬ (!X) = true) (hB : ¬ X = true) :
    False := by
  cases X
  · exact hA rfl
  · exact hB rfl

theorem WF_launch (m : MW) (o : LaunchCommand) (env : LaunchEnv)
    (h : WF m.1) : WF (launch m o env).1.1 := by
  simp only [launch]
  split
  · exact h
  split
  · exact h
  split
  · exact h
  split
  · exact h
  split
  · exact h
  · rename_i hA
    apply WF_launchDispatch
    · split
      · exact WF_close m env.closeOracle h
      · exact h
    · split
      · exact (close_shape m env.closeOracle).2.2.1
      · rename_i hB
        have hL : isLaunched m.1 = false := by
          cases hl2 : isLaunched m.1 with
          | false => rfl
          | true =>
            exfalso
            rw [hl2] at hA hB
            rw [Bool.true_and] at hA hB
            exact bool_not_both hA hB
        have hLb : m.1.browser = none := by
          have h2 : (m.1.browser.isSome || m.1.isPersistentContext) = false := hL
          cases hb2 : m.1.browser with
          | none => rfl
          | some b =>
            rw [hb2] at h2
            simp at h2
        exact hLb
    · split
      · exact (close_shape m env.closeOracle).2.2.2.2.2.2.2.2.2.2.1
      · rename_i hB
        have hL : isLaunched m.1 = false := by
          cases hl2 : isLaunched m.1 with
          | false => rfl
          | true =>
            exfalso
            rw [hl2] at hA hB
            rw [Bool.true_and] at hA hB
            exact bool_not_both hA hB
        have h2 : (m.1.browser.isSome || m.1.isPersistentContext) = false := hL
        cases hp2 : m.1.isPersistentContext with
        | false => rfl
        | true =>
          rw [hp2] at h2
          simp at h2

end AgentBrowser
